import Mathlib

/-!
Shallow embedding of the dispatcher repository (Dispatchable task class and
Dispatcher::Impl engine from src/dispatcher/Dispatcher.hpp/.cpp), together
with spec-modelled definitions for the declared-but-undefined parts
(IterativeDispatchableFunction, Dispatcher::empty), and theorems settling
the claims about them.

Modelling conventions:
- Time (boost::posix_time) is Int; a default-constructed ptime
  (not_a_date_time) is Option.none.
- A boost::function0<bool> closure is modelled by its observable call
  behavior: a function from invocation index to the outcome of that call.
  An outcome is a returned Bool, or raising boost::thread_interrupted, or
  raising any other exception.
- The engine's worker thread is modelled as a fuel-indexed loop over the
  queue; clk gives the clock value read at each loop iteration.
-/

/-- Outcome of one invocation of a wrapped boost::function0<bool> callable:
it returns a bool, raises boost::thread_interrupted, or raises some other
exception. -/
inductive TRet where
  | ret : Bool → TRet
  | throwInterrupt : TRet
  | throwOther : TRet
deriving DecidableEq

/-- The Dispatchable class of Dispatcher.hpp (fields at lines 88-92).
`func_` is the wrapped callable (`none` models an empty boost::function,
i.e. an invalid task); `some f` models a closure whose k-th invocation has
outcome `f k`. `last_run_ = none` models a default-constructed ptime
(not_a_date_time). -/
structure Dispatchable where
  func_ : Option (Nat → TRet)
  recurring_ : Bool
  period_ : Int
  last_run_ : Option Int

/-- Dispatchable::Dispatchable() (Dispatcher.cpp 31-34): invalid task. -/
def Dispatchable.mkInvalid : Dispatchable :=
  ⟨none, false, 0, none⟩

/-- Dispatchable::Dispatchable(Callable, bool) (Dispatcher.cpp 36-39):
one-shot (non-recurring) task wrapping a bool-returning callable. -/
def Dispatchable.mkOneShot (f : Nat → TRet) : Dispatchable :=
  ⟨some f, false, 0, none⟩

/-- Dispatchable::Dispatchable(Callable, time_duration) (Dispatcher.cpp
41-44): recurring task with the given minimum period. -/
def Dispatchable.mkRecurring (f : Nat → TRet) (period : Int) : Dispatchable :=
  ⟨some f, true, period, none⟩

/-- Dispatchable::isValid (Dispatcher.cpp 72-75): true iff func_ is not
empty. -/
def Dispatchable.isValid (d : Dispatchable) : Bool :=
  d.func_.isSome

/-- Dispatchable::isRecurring (Dispatcher.cpp 85-88). -/
def Dispatchable.isRecurring (d : Dispatchable) : Bool :=
  d.recurring_

/-- Dispatchable::shouldRecur (Dispatcher.cpp 90-102): for a recurring task,
elapsed = now - last_run_ and the result is elapsed >= period_. When
last_run_ is a default ptime (not_a_date_time), the boost comparison
elapsed >= period_ is !(elapsed < period_), and a not_a_date_time duration
is not less than anything, so the comparison is true (the spec words this
as: first run is ready since last run is unset). -/
def Dispatchable.shouldRecur (d : Dispatchable) (now : Int) : Bool :=
  if d.isRecurring then
    match d.last_run_ with
    | none => true
    | some t => decide (d.period_ ≤ now - t)
  else false

/-- Outcome of Dispatchable::run(): the returned bool, or the exception
that escaped it. -/
inductive RunOut where
  | normal : Bool → RunOut
  | interrupted : RunOut
  | failed : RunOut
deriving DecidableEq

/-- Result of Dispatchable::run(): its outcome, whether func_ was invoked,
and the state of the object afterwards. -/
structure RunResult where
  out : RunOut
  invoked : Bool
  state : Dispatchable

/-- Dispatchable::run (Dispatcher.cpp 104-118): if valid, invoke func_
(its k-th invocation, k being the closure's hidden call count, has outcome
f k); on a normal return, if the task is recurring, record the current
time in last_run_. If func_ throws, the exception propagates before
last_run_ is assigned. If invalid, nothing is invoked and false is
returned. -/
def Dispatchable.run (d : Dispatchable) (now : Int) (k : Nat) : RunResult :=
  match d.func_ with
  | none => ⟨.normal false, false, d⟩
  | some f =>
    match f k with
    | .ret b =>
      ⟨.normal b, true, if d.isRecurring then { d with last_run_ := some now } else d⟩
    | .throwInterrupt => ⟨.interrupted, true, d⟩
    | .throwOther => ⟨.failed, true, d⟩

/-- A queue entry: the shared_ptr'd Dispatchable object, the closure's
hidden invocation count, and an identity used to track executions. -/
structure TaskEntry where
  id : Nat
  d : Dispatchable
  calls : Nat

/-- Dispatcher::Impl::isTaskValid (Dispatcher.cpp 271-274): a TaskPtr is
valid iff it is non-null and the pointee isValid(). -/
def isTaskValid : Option TaskEntry → Bool
  | none => false
  | some t => t.d.isValid

/-- The push performed by Dispatcher::Impl::dispatch on the raw queue:
push at the tail iff the task is valid (Dispatcher.cpp 180-188). -/
def pushValid (q : List TaskEntry) (t : TaskEntry) : List TaskEntry :=
  if t.d.isValid then q ++ [t] else q

/-- Observable state of a stopped engine: the task queue (tasks_,
Dispatcher.cpp 334) plus the list of task actions that have been run so
far. No Dispatcher::Impl method other than the worker loop ever runs a
task, so dispatch leaves `executed` unchanged. -/
structure EngineQueue where
  tasks_ : List TaskEntry
  executed : List Nat

/-- Dispatcher::Impl::dispatch (Dispatcher.cpp 180-188): if
isTaskValid(task), push the task at the tail of the queue (and notify the
data-ready condition); otherwise do nothing. It never runs any task. -/
def EngineQueue.dispatch (s : EngineQueue) (task : Option TaskEntry) : EngineQueue :=
  match task with
  | some t => ⟨pushValid s.tasks_ t, s.executed⟩
  | none => s

/-- A sequence of dispatch calls on a stopped engine. -/
def dispatchAll (s : EngineQueue) (l : List (Option TaskEntry)) : EngineQueue :=
  l.foldl EngineQueue.dispatch s

/-- Dispatcher::Impl::size (Dispatcher.cpp 205-211): the queue length. -/
def EngineQueue.size (s : EngineQueue) : Nat :=
  s.tasks_.length

/-- Modelled from the spec: Dispatcher::empty() is declared in
Dispatcher.hpp (lines 158-159, documented as "check if size() == 0") but
its definition is not under src/; modelled as size() == 0. -/
def EngineQueue.empty (s : EngineQueue) : Bool :=
  s.size == 0

/-- How an observation of the worker loop ends. -/
inductive LoopExit where
  | fuelOut : LoopExit
  | idleWait : LoopExit
  | interruptedCaught : LoopExit
  | failedEscape : LoopExit
deriving DecidableEq

/-- Dispatcher::Impl::run (Dispatcher.cpp 214-269), the worker loop, as a
fuel-indexed function from the queue to the execution log (task id and
clock value of each completed-or-started run) and the way the observation
ended. `clk i` is the clock read at iteration i. stopRequested_ stays
false while we observe (no concurrent stop); the catch of
boost::thread_interrupted sets it and the loop exits (interruptedCaught);
any other exception from a task escapes the try block and terminates the
worker (failedEscape). An empty queue makes the worker block on
dataReadyCondition_ (idleWait ends the observation). An invalid task is
dequeued and silently dropped. A dequeued task is processed as in lines
227-257: run it unless it is a recurring task whose shouldRecur() is
false; then recur is the value run() returned, overridden to true for
recurring tasks that ran; if recur, the task is re-dispatched at the tail
(dispatch re-checks validity), otherwise the pointer is reset. Note the
not-run branch leaves recur false, so the task is dropped there. -/
def workerLoop (clk : Nat → Int) : Nat → Nat → List TaskEntry → List (Nat × Int) × LoopExit
  | 0, _, _ => ([], .fuelOut)
  | _ + 1, _, [] => ([], .idleWait)
  | fuel + 1, i, t :: rest =>
    if t.d.isValid then
      if !t.d.isRecurring || t.d.shouldRecur (clk i) then
        let r := t.d.run (clk i) t.calls
        match r.out with
        | .interrupted => ([(t.id, clk i)], .interruptedCaught)
        | .failed => ([(t.id, clk i)], .failedEscape)
        | .normal b =>
          let recur := if t.d.isRecurring then true else b
          let t2 : TaskEntry := ⟨t.id, r.state, t.calls + 1⟩
          let next := workerLoop clk fuel (i + 1) (if recur then pushValid rest t2 else rest)
          ((t.id, clk i) :: next.1, next.2)
      else
        workerLoop clk fuel (i + 1) rest
    else
      workerLoop clk fuel (i + 1) rest

/-- Effects of a lifecycle operation on the engine. -/
inductive StartEffect where
  | spawnWorker : StartEffect
  | wakeSignal : StartEffect
deriving DecidableEq

/-- Worker-lifecycle state guarded by threadMutex_: whether the worker
thread is running, and the stopRequested_ flag. -/
structure LifeState where
  running : Bool
  stopRequested_ : Bool
deriving DecidableEq

/-- Dispatcher::Impl::start (Dispatcher.cpp 160-168): under threadMutex_,
if the worker thread is not running, clear stopRequested_ and spawn the
worker; otherwise the body does nothing (in particular it performs no
notify_all). The effect list records thread spawns and condition
signals. -/
def LifeState.start (s : LifeState) : LifeState × List StartEffect :=
  if !s.running then (⟨true, false⟩, [.spawnWorker])
  else (s, [])

/-- Modelled from the spec: IterativeDispatchableFunction is declared in
Dispatchables.hpp (lines 130-158) but the definitions of its members are
not under src/ (Dispatchables.cpp implements only the older Dispatchable
class). Per the spec, its readiness state is a remaining-iteration
counter: shouldExecute() and isRecurring() are true while the remaining
count > 0, and run() invokes the wrapped action and decrements the
remaining count. -/
structure IterTask where
  id : Nat
  remaining : Nat
deriving DecidableEq

/-- Modelled from the spec: IterativeDispatchableFunction::shouldExecute,
true iff remaining count > 0. -/
def IterTask.shouldExecute (t : IterTask) : Bool :=
  0 < t.remaining

/-- Modelled from the spec: IterativeDispatchableFunction::isRecurring,
true while remaining count > 0. -/
def IterTask.isRecurring (t : IterTask) : Bool :=
  0 < t.remaining

/-- Modelled from the spec: IterativeDispatchableFunction::run invokes the
action and decrements the remaining count. -/
def IterTask.run (t : IterTask) : IterTask :=
  ⟨t.id, t.remaining - 1⟩

/-- Modelled from the spec: the worker loop of the engine revision that
drives the Dispatchables.hpp task family (that revision is not under
src/). Spec worker loop step 3: dequeue the head task; call
shouldExecute(); if true, call run(); then call isRecurring(); if true,
re-enqueue the same task at the tail, otherwise drop it. The log records
(task id, iteration) for each run() performed. -/
def specWorker : Nat → Nat → List IterTask → List (Nat × Nat)
  | 0, _, _ => []
  | _ + 1, _, [] => []
  | fuel + 1, i, t :: rest =>
    let t2 := if t.shouldExecute then t.run else t
    let q2 := rest ++ (if t2.isRecurring then [t2] else [])
    let log := specWorker fuel (i + 1) q2
    if t.shouldExecute then (t.id, i) :: log else log

/-- Concrete tasks used by the settled claims. -/
def notDueTask : TaskEntry :=
  ⟨1, ⟨some fun _ => TRet.ret false, true, 10, some 0⟩, 0⟩

def throwingTask : TaskEntry :=
  ⟨1, ⟨some fun _ => TRet.throwOther, false, 0, none⟩, 0⟩

def afterThrowTask : TaskEntry :=
  ⟨2, ⟨some fun _ => TRet.ret false, false, 0, none⟩, 0⟩

def invalidEntry : TaskEntry :=
  ⟨0, Dispatchable.mkInvalid, 0⟩

/-- Helper: one dispatch call grows the queue by one entry iff the TaskPtr
is valid, and runs nothing. -/
theorem dispatch_step (s : EngineQueue) (o : Option TaskEntry) :
    (s.dispatch o).size = s.size + (if isTaskValid o then 1 else 0) ∧
    (s.dispatch o).executed = s.executed := by
  rcases o with _ | t
  · simp [EngineQueue.dispatch, isTaskValid]
  · rcases hv : t.d.isValid with _ | _ <;>
      simp [EngineQueue.dispatch, pushValid, isTaskValid, hv, EngineQueue.size]

/-- Helper: dispatching a sequence of TaskPtrs onto a stopped engine adds
exactly the valid ones to the queue and runs nothing. -/
theorem dispatchAll_size_executed (l : List (Option TaskEntry)) :
    ∀ s : EngineQueue,
      (dispatchAll s l).size = s.size + l.countP (fun o => isTaskValid o) ∧
      (dispatchAll s l).executed = s.executed := by
  induction l with
  | nil => intro s; simp [dispatchAll]
  | cons o rest ih =>
    intro s
    have hstep := dispatch_step s o
    have h := ih (s.dispatch o)
    simp only [dispatchAll, List.foldl_cons] at h ⊢
    refine ⟨?_, h.2.trans hstep.2⟩
    rw [h.1, hstep.1, List.countP_cons]
    rcases hq : isTaskValid o with _ | _
    · simp [hq]
    · simp [hq]
      omega

/-- Claim C1: the claim says a dequeued task with isRecurring() true and
shouldRecur() false is skipped and re-enqueued at the tail. The code run
at the failing input (a recurring task with period 10 whose last run was
at time 0, dequeued at time 5): the task is indeed not run (empty
execution log), but it is dropped rather than re-enqueued — the loop then
finds the queue empty and idles. This evaluates Dispatcher::Impl::run at
the failing input, exhibiting the divergence between the code and the
claim (and the spec, which mandates re-enqueueing). -/
theorem c1_code_eval :
    workerLoop (fun _ => 5) 2 0 [notDueTask] = ([], .idleWait) := rfl

/-- Claim C2, counterexample: dispatching one non-null but invalid
(action-less) task to a fresh stopped engine leaves size() at 0, while
the number of non-null pointers dispatched is 1, so size() does not equal
the count of non-null tasks dispatched. -/
theorem c2_counterexample :
    ¬ ((dispatchAll ⟨[], []⟩ [some invalidEntry]).size =
        List.countP (fun o => o.isSome) [some invalidEntry]) := by
  decide

/-- Claim C2 (amended): for every sequence of dispatch(task) calls made
while the engine is stopped, size() afterwards equals the number of
dispatched pointers that are non-null and refer to a valid task (a
non-empty function); null and action-less pointers are not counted; and
no task's action is executed before start() is called. -/
theorem c2_amended (l : List (Option TaskEntry)) :
    (dispatchAll ⟨[], []⟩ l).size = l.countP (fun o => isTaskValid o) ∧
    (dispatchAll ⟨[], []⟩ l).executed = [] := by
  simpa [EngineQueue.size] using dispatchAll_size_executed l ⟨[], []⟩

/-- Helper: the worker loop produces no executions from an empty queue. -/
theorem workerLoop_nil (clk : Nat → Int) (fuel i : Nat) :
    (workerLoop clk fuel i []).1 = [] := by
  cases fuel <;> rfl

/-- Claim C3, counterexample: a task whose run() raises an exception other
than thread interruption (throwingTask, id 1) followed by an ordinary task
(afterThrowTask, id 2). The worker loop terminates by the escaping
exception after the first task: the log contains only task 1 and the loop
exit is failedEscape — the second task is never consumed, and no stop
request was involved. -/
theorem c3_counterexample :
    workerLoop (fun _ => 0) 5 0 [throwingTask, afterThrowTask] =
      ([(1, 0)], .failedEscape) := rfl

/-- Claim C3 (amended): the worker loop's try block catches only
boost::thread_interrupted; when a dequeued (non-recurring) task's run()
raises any other exception, that exception escapes the worker loop, which
terminates at once without consuming the remaining tasks. -/
theorem c3_amended (id k : Nat) (d : Dispatchable) (f : Nat → TRet)
    (rest : List TaskEntry) (clk : Nat → Int) (fuel i : Nat)
    (h1 : d.func_ = some f) (h2 : d.recurring_ = false)
    (h3 : f k = TRet.throwOther) :
    workerLoop clk (fuel + 1) i (⟨id, d, k⟩ :: rest) =
      ([(id, clk i)], .failedEscape) := by
  simp [workerLoop, Dispatchable.isValid, Dispatchable.isRecurring,
    Dispatchable.run, h1, h2, h3]

/-- Witness for claim C3 (amended): the concrete throwing task alone in
the queue; the loop stops with the escaping exception. -/
theorem c3_witness :
    workerLoop (fun _ => 3) 8 0 [throwingTask] = ([(1, 3)], .failedEscape) :=
  c3_amended 1 0 throwingTask.d (fun _ => TRet.throwOther) [] (fun _ => 3) 7 0
    rfl rfl rfl

/-- Claim C4, counterexample: the claim says that start() on an
already-running engine wakes the worker by issuing a wake signal. At a
running engine, start() produces no wake signal at all (its effect list
is empty). -/
theorem c4_counterexample :
    ¬ (StartEffect.wakeSignal ∈ (LifeState.start ⟨true, false⟩).2) := by
  decide

/-- Claim C4 (amended): start() is idempotent: when the engine is not
running it clears the stop flag and spawns the worker; when the engine is
already running it spawns no second worker and does nothing further — in
particular it issues no wake signal. -/
theorem c4_amended (s : LifeState) :
    LifeState.start s =
      if s.running then (s, []) else (⟨true, false⟩, [StartEffect.spawnWorker]) := by
  rcases s with ⟨r, f⟩
  cases r <;> simp [LifeState.start]

/-- Helper: the spec-modelled worker produces no executions from an empty
queue. -/
theorem specWorker_nil (fuel i : Nat) : specWorker fuel i [] = [] := by
  cases fuel <;> rfl

/-- Helper: a bounded-repeat task with remaining count N, alone in the
queue of the spec-modelled worker, is executed exactly N times whenever at
least N loop iterations are observed. -/
theorem specWorker_iter_len (N : Nat) :
    ∀ fuel i id : Nat, N ≤ fuel →
      (specWorker fuel i [⟨id, N⟩]).length = N := by
  induction N with
  | zero =>
    intro fuel i id _
    cases fuel with
    | zero => rfl
    | succ fl =>
      simp [specWorker, IterTask.shouldExecute, IterTask.isRecurring, specWorker_nil]
  | succ m ih =>
    intro fuel i id h
    cases fuel with
    | zero => omega
    | succ fl =>
      have hm : m ≤ fl := by omega
      cases m with
      | zero =>
        simp [specWorker, IterTask.shouldExecute, IterTask.run,
          IterTask.isRecurring, specWorker_nil]
      | succ j =>
        have := ih fl (i + 1) id hm
        simp [specWorker, IterTask.shouldExecute, IterTask.run,
          IterTask.isRecurring] at this ⊢
        omega

/-- Claim C5: a bounded-repeat task with repeat count N, dispatched alone
to the running (spec-modelled) engine, has its action executed exactly N
times no matter how much longer the engine keeps running (any fuel ≥ N
yields exactly N executions, so it is removed permanently with no further
executions), and isRecurring() is false once the count is exhausted. -/
theorem c5_iterative (id N fuel : Nat) (h : N ≤ fuel) :
    (specWorker fuel 0 [⟨id, N⟩]).length = N ∧
    IterTask.isRecurring ⟨id, 0⟩ = false :=
  ⟨specWorker_iter_len N fuel 0 id h, rfl⟩

/-- Witness for claim C5: repeat count 3, observed for 7 iterations:
exactly 3 executions. -/
theorem c5_witness :
    3 ≤ 7 ∧
      ((specWorker 7 0 [⟨9, 3⟩]).length = 3 ∧
        IterTask.isRecurring ⟨9, 0⟩ = false) :=
  ⟨by decide, c5_iterative 9 3 7 (by decide)⟩

/-- Claim C7: dispatching a null task reference is a silent no-op on the
engine state (no error is signalled, the queue is unchanged), and on a
freshly constructed stopped engine, size() remains 0 and empty() remains
true after such a dispatch. -/
theorem c7_null_dispatch (s : EngineQueue) :
    EngineQueue.dispatch s none = s ∧
    (EngineQueue.dispatch ⟨[], []⟩ none).size = 0 ∧
    (EngineQueue.dispatch ⟨[], []⟩ none).empty = true := by
  exact ⟨rfl, rfl, rfl⟩

/-- Helper: a valid non-recurring task whose callable returns true on its
next n invocations and false on the one after, alone in the queue, is run
exactly n + 1 times: every true return re-enqueues it (recur = run()'s
return value for non-recurring tasks), the false return drops it. -/
theorem workerLoop_oneShot_len (n : Nat) :
    ∀ (fuel i k id : Nat) (f : Nat → TRet) (clk : Nat → Int),
      (∀ j, j < n → f (k + j) = TRet.ret true) →
      f (k + n) = TRet.ret false →
      n + 1 ≤ fuel →
      ((workerLoop clk fuel i [⟨id, ⟨some f, false, 0, none⟩, k⟩]).1).length = n + 1 := by
  induction n with
  | zero =>
    intro fuel i k id f clk _ hlast hfuel
    cases fuel with
    | zero => omega
    | succ fl =>
      have hk : f k = TRet.ret false := by simpa using hlast
      simp [workerLoop, Dispatchable.isValid, Dispatchable.isRecurring,
        Dispatchable.run, hk, workerLoop_nil]
  | succ m ih =>
    intro fuel i k id f clk htrue hlast hfuel
    cases fuel with
    | zero => omega
    | succ fl =>
      have hk : f k = TRet.ret true := by
        have := htrue 0 (by omega)
        simpa using this
      have hrec := ih fl (i + 1) (k + 1) id f clk
        (fun j hj => by
          have := htrue (j + 1) (by omega)
          simpa [Nat.add_assoc, Nat.add_comm 1 j] using this)
        (by simpa [Nat.add_assoc, Nat.add_comm 1 m] using hlast)
        (by omega)
      simp [workerLoop, Dispatchable.isValid, Dispatchable.isRecurring,
        Dispatchable.run, pushValid, hk] at hrec ⊢
      omega

/-- Claim C8: a non-recurring task (isRecurring() is false throughout)
wrapping a bool-returning callable that returns true on its first n calls
and false on call n is executed exactly n + 1 times by the worker: each
true return makes the loop re-enqueue the task and run it again, and the
first false return drops it. -/
theorem c8_selfRecur (id n fuel : Nat) (f : Nat → TRet) (clk : Nat → Int)
    (h1 : ∀ j, j < n → f j = TRet.ret true)
    (h2 : f n = TRet.ret false)
    (h3 : n + 1 ≤ fuel) :
    ((workerLoop clk fuel 0 [⟨id, ⟨some f, false, 0, none⟩, 0⟩]).1).length = n + 1 ∧
    Dispatchable.isRecurring ⟨some f, false, 0, none⟩ = false := by
  refine ⟨?_, rfl⟩
  exact workerLoop_oneShot_len n fuel 0 0 id f clk
    (fun j hj => by simpa using h1 j hj) (by simpa using h2) h3

/-- Witness for claim C8: a callable returning true on calls 0 and 1 and
false on call 2 is executed exactly 3 times. -/
theorem c8_witness :
    ((workerLoop (fun _ => 0) 5 0
        [⟨4, ⟨some fun j => TRet.ret (decide (j < 2)), false, 0, none⟩, 0⟩]).1).length = 3 ∧
    Dispatchable.isRecurring ⟨some fun j => TRet.ret (decide (j < 2)), false, 0, none⟩ = false :=
  c8_selfRecur 4 2 5 (fun j => TRet.ret (decide (j < 2))) (fun _ => 0)
    (fun j hj => by simp only []; rw [decide_eq_true hj]) (by rfl) (by decide)

/-- Helper: shouldRecur at a recorded last run forces the period to have
elapsed. -/
theorem shouldRecur_some (d : Dispatchable) (now t0 : Int)
    (h : d.last_run_ = some t0) (hs : d.shouldRecur now = true) :
    d.period_ ≤ now - t0 := by
  unfold Dispatchable.shouldRecur at hs
  rcases hr : d.isRecurring with _ | _
  · simp [hr] at hs
  · simp [hr, h] at hs
    exact hs

/-- Helper: a recurring valid task alone in the queue produces an
execution log whose successive timestamps are at least period_ apart, and
whose first timestamp is at least period_ after any recorded last run.
The loop runs the task only when shouldRecur() is true (elapsed since
last_run_ at least period_), and each run records its own time in
last_run_ of the re-enqueued task. -/
theorem workerLoop_periodic_gap (fuel : Nat) :
    ∀ (clk : Nat → Int) (i id k : Nat) (d : Dispatchable) (f : Nat → TRet),
      d.recurring_ = true → d.func_ = some f → (∀ j, ∃ c, f j = TRet.ret c) →
      List.Chain' (fun a e : Nat × Int => d.period_ ≤ e.2 - a.2)
        (workerLoop clk fuel i [⟨id, d, k⟩]).1 ∧
      (∀ t0 : Int, d.last_run_ = some t0 →
        ∀ e ∈ ((workerLoop clk fuel i [⟨id, d, k⟩]).1).head?,
          d.period_ ≤ e.2 - t0) := by
  induction fuel with
  | zero =>
    intro clk i id k d f _ _ _
    simp [workerLoop]
  | succ fl ih =>
    intro clk i id k d f hrec hf hsched
    obtain ⟨b, hfk⟩ := hsched k
    rcases hs : d.shouldRecur (clk i) with _ | _
    · have hlog : (workerLoop clk (fl + 1) i [⟨id, d, k⟩]).1 = [] := by
        simp [workerLoop, Dispatchable.isValid, Dispatchable.isRecurring,
          hf, hrec, hs, workerLoop_nil]
      rw [hlog]
      simp
    · have hstep : workerLoop clk (fl + 1) i [⟨id, d, k⟩] =
          ((id, clk i) ::
            (workerLoop clk fl (i + 1)
              [⟨id, { d with last_run_ := some (clk i) }, k + 1⟩]).1,
           (workerLoop clk fl (i + 1)
              [⟨id, { d with last_run_ := some (clk i) }, k + 1⟩]).2) := by
        simp [workerLoop, Dispatchable.isValid, Dispatchable.isRecurring,
          Dispatchable.run, pushValid, hf, hrec, hs, hfk]
      have hih := ih clk (i + 1) id (k + 1) { d with last_run_ := some (clk i) } f
        hrec hf hsched
      rw [hstep]
      constructor
      · rw [List.chain'_cons']
        exact ⟨fun e he => hih.2 (clk i) rfl e he, hih.1⟩
      · intro t0 ht0 e he
        simp only [List.head?_cons, Option.mem_def, Option.some.injEq] at he
        subst he
        simpa using shouldRecur_some d (clk i) t0 ht0 hs

/-- Claim C6: a periodic (recurring, valid) task with period P never
executes twice within less than P: in the worker loop's execution log for
that task, successive run timestamps are at least P apart. Moreover the
readiness check shouldRecur() is true exactly when the time elapsed since
the recorded last run is at least P, it is true on the first check when
last_run_ is unset, and run() records the current time as last_run_ for
recurring tasks. -/
theorem c6_periodic (id : Nat) (d : Dispatchable) (f : Nat → TRet)
    (clk : Nat → Int) (fuel : Nat) (now t0 : Int) (k : Nat) (b : Bool)
    (h1 : d.recurring_ = true) (h2 : d.func_ = some f)
    (h3 : ∀ j, ∃ c, f j = TRet.ret c) :
    List.Chain' (fun a e : Nat × Int => d.period_ ≤ e.2 - a.2)
      (workerLoop clk fuel 0 [⟨id, d, 0⟩]).1 ∧
    (d.last_run_ = none → d.shouldRecur now = true) ∧
    (d.last_run_ = some t0 → (d.shouldRecur now = true ↔ d.period_ ≤ now - t0)) ∧
    (f k = TRet.ret b → (d.run now k).state.last_run_ = some now) := by
  refine ⟨(workerLoop_periodic_gap fuel clk 0 id 0 d f h1 h2 h3).1, ?_, ?_, ?_⟩
  · intro hnone
    simp [Dispatchable.shouldRecur, Dispatchable.isRecurring, h1, hnone]
  · intro hsome
    simp [Dispatchable.shouldRecur, Dispatchable.isRecurring, h1, hsome]
  · intro hfk
    simp [Dispatchable.run, Dispatchable.isRecurring, h1, h2, hfk]

/-- Witness for claim C6: a period-10 recurring task checked by a clock
advancing 10 per iteration runs each iteration; the logged timestamps are
10 apart. -/
theorem c6_witness :
    List.Chain' (fun a e : Nat × Int => (10 : Int) ≤ e.2 - a.2)
      (workerLoop (fun i => 10 * i) 3 0
        [⟨1, ⟨some fun _ => TRet.ret true, true, 10, none⟩, 0⟩]).1 :=
  (c6_periodic 1 ⟨some fun _ => TRet.ret true, true, 10, none⟩
    (fun _ => TRet.ret true) (fun i => 10 * i) 3 0 0 0 true rfl rfl
    (fun _ => ⟨true, rfl⟩)).1

/-- Claim C9: for every Dispatchable in every state, shouldRecur()
returning true implies isRecurring() returns true. -/
theorem c9_shouldRecur_imp_isRecurring (d : Dispatchable) (now : Int)
    (h : d.shouldRecur now = true) : d.isRecurring = true := by
  unfold Dispatchable.shouldRecur at h
  by_cases hr : d.isRecurring = true
  · exact hr
  · simp [hr] at h

/-- Witness for claim C9: a concrete recurring task (period 10, last run
unset) is due to recur at time 0, and the theorem yields that it is
recurring. -/
theorem c9_witness :
    Dispatchable.shouldRecur ⟨some fun _ => TRet.ret false, true, 10, none⟩ 0 = true ∧
    Dispatchable.isRecurring ⟨some fun _ => TRet.ret false, true, 10, none⟩ = true :=
  ⟨rfl, c9_shouldRecur_imp_isRecurring ⟨some fun _ => TRet.ret false, true, 10, none⟩ 0 rfl⟩

/-- Claim C10: Dispatchable::run() mutates last_run_ only when the task
is valid and recurring; for an invalid task (empty function) run()
invokes nothing, returns false, and leaves every field unchanged; and for
a non-recurring task run() leaves the whole state (in particular
last_run_) unchanged. -/
theorem c10_run_frame (d : Dispatchable) (now : Int) (k : Nat) :
    (d.isValid = false → d.run now k = ⟨.normal false, false, d⟩) ∧
    (d.recurring_ = false → (d.run now k).state = d) ∧
    ((d.run now k).state.last_run_ ≠ d.last_run_ →
      d.isValid = true ∧ d.recurring_ = true) := by
  rcases hf : d.func_ with _ | f
  · simp [Dispatchable.run, Dispatchable.isValid, hf]
  · rcases hk : f k with b | _ | _ <;>
      rcases hr : d.recurring_ with _ | _ <;>
        simp [Dispatchable.run, Dispatchable.isValid, Dispatchable.isRecurring, hf, hk, hr]

/-- Witness for claim C10: the invalid task. run() at time 0 invokes
nothing, returns false and leaves the object unchanged. -/
theorem c10_witness :
    Dispatchable.isValid Dispatchable.mkInvalid = false ∧
    Dispatchable.run Dispatchable.mkInvalid 0 0 =
      ⟨RunOut.normal false, false, Dispatchable.mkInvalid⟩ :=
  ⟨rfl, (c10_run_frame Dispatchable.mkInvalid 0 0).1 rfl⟩
